import Mathlib

/-!
Shallow embedding of the YouTube-analyzer tool scripts
(`CompetitorSearchTool.py`, `VideoFetchingTool.py`,
`ChannelDemographicsTool.py`, `VideoPerformanceAnalyzer.py`).

External collaborators (the HTTP client built by `build(...)` and the
credential provider) are modelled as explicit parameters: each API call
is a function returning `Except String r`, where `Except.error e`
models the call raising an exception whose `str(...)` rendering is `e`.
Python numbers arising from true division are modelled as `ℚ`
(the divisions occurring in these tools are exact at this granularity);
Python string values parsed from the JSON responses are modelled as
`String`/`Nat` fields, with `Option` for keys accessed through `.get`.
Report-text numeric formatting (thousand separators, fixed decimals)
is simplified to `toString`; no verified property depends on it.
-/

set_option maxRecDepth 8000

namespace YTA

/-! ### Python string primitives -/

deriving instance DecidableEq for Except

/-- Model of Python `str.lower()` (ASCII-faithful). -/
def pyLower (s : String) : String := String.mk (s.toList.map Char.toLower)

/-- Model of Python `str.split()` with no argument: split on runs of
whitespace, discarding empty tokens. -/
def pySplit (s : String) : List String :=
  ((List.splitOnP (fun c => c.isWhitespace) s.toList).filter
    (fun l => !l.isEmpty)).map (fun l => String.mk l)

/-- Substring test on character lists: `pyIn needle hay` models the Python
expression `needle in hay` for strings. -/
def pyIn (needle : List Char) : List Char → Bool
  | [] => needle.isEmpty
  | c :: rest => needle.isPrefixOf (c :: rest) || pyIn needle rest

/-- Model of the Python `in` operator on strings. -/
def pyInStr (needle hay : String) : Bool := pyIn needle.toList hay.toList

/-- Model of Python true division of two non-negative integers (every
division in these tools divides integer counts): raises
`ZeroDivisionError` (whose `str` is `division by zero`) when the
divisor is zero, and otherwise yields the exact rational quotient. -/
def pyDiv (a b : Nat) : Except String ℚ :=
  if b = 0 then .error "division by zero" else .ok (mkRat a b)

/-- Model of the `try: ... except Exception as e: return msg + str(e)`
wrapper that encloses the whole body of every tool `run` method. -/
def pyTry (msg : String) (body : Except String String) : String :=
  match body with
  | .ok s => s
  | .error e => msg ++ e

/-- Truthiness of `os.getenv` results: `not API_KEY` is true when the
variable is unset (`None`) or the empty string. -/
def pyFalsyStr : Option String → Bool
  | none => true
  | some s => s.isEmpty

/-! ### Descending sort

CPython's `list.sort(key=k, reverse=True)` (used by
`CompetitorSearchTool` and `VideoPerformanceAnalyzer`) is a stable sort
ordered by non-increasing key (`reverse=True` does not reorder equal
elements).  `sortDescBy` models it by a structurally recursive stable
insertion sort so that concrete runs reduce in the kernel.

`pandas.DataFrame.sort_values(ascending=False)` in `VideoFetchingTool`
is a different ranker: with its default `kind` the pandas documentation
guarantees only a sorted permutation and does NOT guarantee stability,
so the order of tied records is not determined by the source.  That
contract is captured by `PandasSortValuesDesc` below; where the
embedding needs a concrete sequence for that call site it uses
`sortDescBy` as one admissible refinement of the contract, and no
verified property of that tool may rely on the tie order this choice
happens to produce. -/

/-- Insert `x` in front of the first element whose key is not larger,
keeping earlier-inserted equal-key elements behind `x`. -/
def insertDescBy (key : α → Nat) (x : α) : List α → List α
  | [] => [x]
  | b :: l => if key x < key b then b :: insertDescBy key x l else x :: b :: l

/-- Stable sort by non-increasing `key`: models
`list.sort(key=key, reverse=True)`. -/
def sortDescBy (key : α → Nat) : List α → List α
  | [] => []
  | x :: xs => insertDescBy key x (sortDescBy key xs)

/-- Everything `df.sort_values(by=key, ascending=False)` with the
default `kind` guarantees about its output for a given input: an
equal-length permutation that is non-increasing on the key.  Stability
is absent from this contract - pandas documents the default sort kind
as not stable - so any output related to the input by this predicate is
an admissible behaviour of the `VideoFetchingTool` ranker. -/
def PandasSortValuesDesc (key : α → Nat) (input out : List α) : Prop :=
  List.Perm out input ∧ out.Pairwise (fun a b => key b ≤ key a)

/-! ### CompetitorSearchTool (`CompetitorSearchTool.py`)

`run` builds a client with `developerKey=API_KEY` (no key validation),
issues `search().list(q=..., type=channel, maxResults=...)`, harvests
`snippet.channelId` from the items, issues one `channels().list` batch
lookup, scores each channel by keyword overlap, filters by the relevance
threshold, sorts descending by subscriber count, and formats the report
with summary averages. -/

/-- Statistics block of a channel resource; each counter is accessed via
`.get`, so absent keys are `none`. -/
structure ChannelStats where
  subscriberCount : Option Nat
  videoCount : Option Nat
  viewCount : Option Nat
deriving DecidableEq

/-- One item of the `channels().list` response consumed by
`CompetitorSearchTool` (snippet, statistics, brandingSettings,
topicDetails). -/
structure SearchChannel where
  id : String
  title : String
  description : String
  keywords : Option String
  country : Option String
  publishedAt : String
  topics : List String
  stats : ChannelStats
deriving DecidableEq

/-- Enriched per-channel dictionary built inside the loop. -/
structure Competitor where
  channel_name : String
  channel_id : String
  description : String
  subscriber_count : Nat
  video_count : Nat
  view_count : Nat
  country : String
  created_date : String
  topics : List String
  relevance_score : ℚ
  url : String
deriving DecidableEq

/-- HTTP collaborator for `CompetitorSearchTool`: `search` receives the
query and `maxResults` and yields the harvested channel ids of the
response items; `channels` receives the joined id list and yields the
response items. -/
structure CompetitorApi where
  search : String → Nat → Except String (List String)
  channels : List String → Except String (List SearchChannel)

/-- Lowercased whitespace-split query terms:
`self.search_query.lower().split()`. -/
def searchTermsOf (q : String) : List String := pySplit (pyLower q)

/-- Lowercased keyword field with `.get` defaults:
`channel[brandingSettings].get(channel, \x7b\x7d).get(keywords, ).lower()`. -/
def channelKeywords (c : SearchChannel) : String := pyLower (c.keywords.getD "")

/-- Lowercased description: `channel[snippet][description].lower()`. -/
def channelDescLower (c : SearchChannel) : String := pyLower c.description

/-- Count of query terms found in the keyword field or in the
description: `sum((term in keywords or term in description) for term in
search_terms)`. -/
def termMatches (terms : List String) (keywords desc : String) : Nat :=
  terms.countP (fun t => pyInStr t keywords || pyInStr t desc)

/-- Relevance score of one channel; the division raises
`ZeroDivisionError` for a zero-term query. -/
def relevanceScore (q : String) (c : SearchChannel) : Except String ℚ :=
  let terms := searchTermsOf q
  pyDiv (termMatches terms (channelKeywords c) (channelDescLower c))
    terms.length

/-- Description truncation used when building `competitor_data`. -/
def truncDescription (s : String) : String :=
  if 200 < s.length then String.mk (s.toList.take 200) ++ "..." else s

/-- The `competitor_data` dictionary for a channel passing the filter. -/
def mkCompetitor (score : ℚ) (c : SearchChannel) : Competitor :=
  { channel_name := c.title
    channel_id := c.id
    description := truncDescription c.description
    subscriber_count := c.stats.subscriberCount.getD 0
    video_count := c.stats.videoCount.getD 0
    view_count := c.stats.viewCount.getD 0
    country := c.country.getD "Not specified"
    created_date := c.publishedAt
    topics := c.topics
    relevance_score := score
    url := "https://www.youtube.com/channel/" ++ c.id }

/-- Scoring and threshold-filter loop over the channel response items,
in response order; propagates the scoring division error. -/
def buildCompetitors (q : String) (threshold : ℚ) :
    List SearchChannel → Except String (List Competitor)
  | [] => .ok []
  | c :: rest => do
    let score ← relevanceScore q c
    let others ← buildCompetitors q threshold rest
    if threshold ≤ score then
      .ok (mkCompetitor score c :: others)
    else
      .ok others

/-- Report entry for one competitor (numeric formatting simplified). -/
def formatCompetitorEntry (idx : Nat) (c : Competitor) : String :=
  toString (idx + 1) ++ ". " ++ c.channel_name ++ "\n" ++
  "   Relevance Score: " ++ toString c.relevance_score ++ "\n" ++
  "   Subscribers: " ++ toString c.subscriber_count ++ "\n" ++
  "   Total Views: " ++ toString c.view_count ++ "\n" ++
  "   Videos: " ++ toString c.video_count ++ "\n" ++
  "   Country: " ++ c.country ++ "\n" ++
  "   Description: " ++ c.description ++ "\n" ++
  "   URL: " ++ c.url ++ "\n"

/-- Full report text: header, enumerated entries, summary statistics. -/
def formatCompetitorReport (q : String) (competitors : List Competitor)
    (avgSubs avgViews : ℚ) : String :=
  "Competitor Analysis Report for " ++ q ++ "\n" ++
  (String.join ((competitors.enum.map
    (fun p => formatCompetitorEntry p.1 p.2)))) ++
  "\nSummary Statistics:\n" ++
  "Average Subscribers: " ++ toString avgSubs ++ "\n" ++
  "Average Total Views: " ++ toString avgViews ++ "\n" ++
  "Total Competitors Found: " ++ toString competitors.length ++ "\n"

/-- Body of `CompetitorSearchTool.run` inside the `try`. -/
def competitorBody (apiKey : Option String) (api : CompetitorApi)
    (q : String) (maxResults : Nat) (threshold : ℚ) :
    Except String String := do
  -- build(youtube, v3, developerKey=API_KEY): client construction does
  -- not validate or require the key.
  let items ← api.search q maxResults
  if items.isEmpty then
    .ok "No competing channels found."
  else do
    let chans ← api.channels items
    let comps ← buildCompetitors q threshold chans
    let competitors := sortDescBy (fun c => c.subscriber_count) comps
    let avgSubs ← pyDiv
      ((competitors.map (fun c => c.subscriber_count)).sum)
      competitors.length
    let avgViews ← pyDiv
      ((competitors.map (fun c => c.view_count)).sum)
      competitors.length
    .ok (formatCompetitorReport q competitors avgSubs avgViews)

/-- `CompetitorSearchTool.run`: the whole body runs under the exception
handler. -/
def runCompetitorSearchTool (apiKey : Option String) (api : CompetitorApi)
    (q : String) (maxResults : Nat) (threshold : ℚ) : String :=
  pyTry "Error searching for competitors: "
    (competitorBody apiKey api q maxResults threshold)

/-! ### VideoFetchingTool (`VideoFetchingTool.py`)

`run` looks up the channel to obtain its uploads playlist, then loops
`while len(videos) < max_results`, requesting one `playlistItems` page
per iteration with `maxResults=min(50, max_results - len(videos))` and
the last continuation token, batch-fetching statistics for the page's
video ids with `videos().list`, appending the batch response items in
response order, and breaking when `nextPageToken` is absent.  The
result is sorted (descending by views or by publish date) and
formatted. -/

/-- One enriched video record (`video_data`).  `published_at` is the
`strptime`-parsed timestamp, modelled as seconds (parsing of the
well-formed API timestamp is assumed to succeed). -/
structure Video where
  title : String
  video_id : String
  published_at : Nat
  view_count : Nat
  like_count : Nat
  comment_count : Nat
deriving DecidableEq

/-- One `playlistItems` response: harvested video ids (`none` models a
response missing the `items` key, which triggers the early return) and
presence of `nextPageToken`. -/
structure FetchPage where
  items : Option (List String)
  nextPageToken : Bool
deriving DecidableEq

/-- HTTP collaborator for `VideoFetchingTool`.  `channelInfo` yields
`(pageInfo.totalResults, uploads playlist id)`.  `playlistItems` is the
sequence of page responses the provider serves, each a function of the
requested `maxResults` so that hypotheses about the provider honouring
the request can be stated; the token value itself is opaque and only
its presence matters.  `videosList` is the batch statistics lookup. -/
structure FetchApi where
  channelInfo : Except String (Nat × String)
  playlistItems : List (Nat → Except String FetchPage)
  videosList : List String → Except String (List Video)

/-- Outcome of the pagination loop. -/
inductive FetchOutcome where
  | report (videos : List Video)
  | noItems
deriving DecidableEq

/-- The `while len(videos) < max_results` pagination loop.  Returns the
loop outcome together with the number of page requests issued.  An
exhausted page list models a provider that can serve no further pages.
The pandas `KeyError` that a fully empty run would produce at
`sort_values` is a library detail outside the loop and not modelled. -/
def fetchLoop (maxResults : Nat)
    (batch : List String → Except String (List Video)) :
    List (Nat → Except String FetchPage) → List Video →
    Except String FetchOutcome × Nat
  | [], acc => (.ok (.report acc), 0)
  | f :: rest, acc =>
    if acc.length < maxResults then
      match f (min 50 (maxResults - acc.length)) with
      | .error e => (.error e, 1)
      | .ok page =>
        match page.items with
        | none => (.ok .noItems, 1)
        | some ids =>
          match batch ids with
          | .error e => (.error e, 1)
          | .ok vids =>
            if page.nextPageToken then
              let r := fetchLoop maxResults batch rest (acc ++ vids)
              (r.1, r.2 + 1)
            else
              (.ok (.report (acc ++ vids)), 1)
    else
      (.ok (.report acc), 0)

/-- Report entry for one video row (numeric formatting simplified; the
row numbering quirk of iterating original pandas index labels is
elided). -/
def formatVideoEntry (v : Video) : String :=
  v.title ++ "\n" ++
  "   Published: " ++ toString v.published_at ++ "\n" ++
  "   Views: " ++ toString v.view_count ++ "\n" ++
  "   Likes: " ++ toString v.like_count ++ "\n" ++
  "   Comments: " ++ toString v.comment_count ++ "\n" ++
  "   URL: https://www.youtube.com/watch?v=" ++ v.video_id ++ "\n"

/-- Full video report text. -/
def formatVideoReport (sortBy : String) (videos : List Video) : String :=
  "Videos from channel (sorted by " ++ sortBy ++ "):\n" ++
  String.join (videos.map formatVideoEntry)

/-- Body of `VideoFetchingTool.run` inside the `try`.  The
`df.sort_values(..., ascending=False)` step guarantees only the
`PandasSortValuesDesc` contract (sorted permutation, tie order
unspecified); `sortDescBy` stands in as one admissible refinement of it,
and no verified property of this tool relies on the tie order it picks.
The `KeyError` a fully empty video list would raise at
`pd.DataFrame(...).sort_values` is a pandas corner not modelled (in the
source it is swallowed by the same blanket handler). -/
def videoFetchBody (apiKey : Option String) (api : FetchApi)
    (channelId : String) (maxResults : Nat) (sortBy : String) :
    Except String String := do
  let info ← api.channelInfo
  if info.1 = 0 then
    .ok ("Error: Channel not found for ID " ++ channelId ++
      ". Please check the channel ID.")
  else
    match fetchLoop maxResults api.videosList api.playlistItems [] with
    | (.error e, _) => .error e
    | (.ok .noItems, _) => .ok "No videos found in the uploads playlist."
    | (.ok (.report videos), _) =>
      let sorted :=
        if pyLower sortBy = "views" then
          sortDescBy (fun v => v.view_count) videos
        else
          sortDescBy (fun v => v.published_at) videos
      .ok (formatVideoReport sortBy sorted)

/-- `VideoFetchingTool.run`: the whole body runs under the exception
handler. -/
def runVideoFetchingTool (apiKey : Option String) (api : FetchApi)
    (channelId : String) (maxResults : Nat) (sortBy : String) : String :=
  pyTry "Error fetching videos: "
    (videoFetchBody apiKey api channelId maxResults sortBy)

/-! ### ChannelDemographicsTool (`ChannelDemographicsTool.py`)

The only tool that checks the API key before building the client.
`statistics.viewCount` and `statistics.videoCount` are read by direct
indexing (a missing key raises `KeyError`), while `subscriberCount`
uses `.get(subscriberCount, Hidden)`. -/

/-- One item of the `channels().list` response consumed by
`ChannelDemographicsTool`. -/
structure DemoChannel where
  title : String
  description : String
  country : Option String
  publishedAt : String
  customUrl : Option String
  stats : ChannelStats
deriving DecidableEq

/-- HTTP collaborator for `ChannelDemographicsTool`; `oauth` models the
`Credentials.from_authorized_user_info`/`build` pair inside the inner
`try`, run only when OAuth credentials are configured. -/
structure DemoApi where
  channels : String → Except String (List DemoChannel)
  oauth : Except String Unit

/-- Direct dictionary indexing `stats[k]`: raises `KeyError` (whose
`str` quotes the key) when the key is absent. -/
def dictGetNat (k : String) : Option Nat → Except String Nat
  | some n => .ok n
  | none => .error ("KeyError: " ++ k)

/-- The `Subscriber Count` report value:
`stats.get(subscriberCount, Hidden)`. -/
def subscriberDisplay (st : ChannelStats) : String :=
  match st.subscriberCount with
  | some n => toString n
  | none => "Hidden"

/-- Basic-statistics section of the demographics report. -/
def formatDemoBasic (c : DemoChannel) (views vids : Nat) : String :=
  "Channel Name: " ++ c.title ++ "\n" ++
  "Description: " ++ truncDescription c.description ++ "\n" ++
  "Country: " ++ c.country.getD "Not specified" ++ "\n" ++
  "Created Date: " ++ c.publishedAt ++ "\n" ++
  "Subscriber Count: " ++ subscriberDisplay c.stats ++ "\n" ++
  "Total Views: " ++ toString views ++ "\n" ++
  "Total Videos: " ++ toString vids ++ "\n" ++
  "Custom URL: " ++ c.customUrl.getD "Not available" ++ "\n"

/-- Advanced-demographics section (present only when OAuth credentials
are configured). -/
def formatDemoAdvanced : List (String × String) → String
  | [] => ""
  | kvs => "\nAdvanced Demographics:\n" ++
      String.join (kvs.map (fun kv => kv.1 ++ ": " ++ kv.2 ++ "\n"))

/-- Body of `ChannelDemographicsTool.run` inside the `try`. -/
def demoBody (apiKey oauthCreds : Option String) (api : DemoApi)
    (channelId : String) : Except String String := do
  if pyFalsyStr apiKey then
    .ok "Error: YouTube API key is not set."
  else do
    let chans ← api.channels channelId
    match chans with
    | [] => .ok "Channel not found or invalid channel ID."
    | c :: _ => do
      let views ← dictGetNat "viewCount" c.stats.viewCount
      let vids ← dictGetNat "videoCount" c.stats.videoCount
      let advanced : List (String × String) :=
        match oauthCreds with
        | none => []
        | some _ =>
          match api.oauth with
          | .ok _ =>
            [("Note",
              "Advanced demographics require YouTube Analytics API access")]
          | .error e =>
            [("Error", "Could not fetch advanced demographics: " ++ e)]
      .ok ("Channel Demographics Report\n\nBasic Statistics:\n" ++
        formatDemoBasic c views vids ++ formatDemoAdvanced advanced)

/-- `ChannelDemographicsTool.run`: the whole body runs under the
exception handler. -/
def runChannelDemographicsTool (apiKey oauthCreds : Option String)
    (api : DemoApi) (channelId : String) : String :=
  pyTry "Error fetching channel demographics: "
    (demoBody apiKey oauthCreds api channelId)

/-! ### VideoPerformanceAnalyzer (`VideoPerformanceAnalyzer.py`)

`run` fetches one video, computes engagement metrics with guarded
divisions, optionally fetches the comment threads, sorts comments by
likes, and reports the top comments plus the mean likes of the
comments from the last 30 days (guarded against emptiness). -/

/-- The video resource consumed by `VideoPerformanceAnalyzer`; duration
is modelled after the hour/minute/second token scan, and
`published_at` as the parsed timestamp in seconds. -/
structure VpaVideo where
  title : String
  channelTitle : String
  publishedAt : Nat
  durationHours : Nat
  durationMinutes : Nat
  durationSeconds : Nat
  viewCount : Option Nat
  likeCount : Option Nat
  commentCount : Option Nat
deriving DecidableEq

/-- One top-level comment record. -/
structure VpaComment where
  text : String
  likes : Nat
  author : String
  publishedAt : Nat
deriving DecidableEq

/-- HTTP collaborator for `VideoPerformanceAnalyzer`; `now` models
`datetime.utcnow()`. -/
structure VpaApi where
  videos : String → Except String (List VpaVideo)
  commentThreads : String → Except String (List VpaComment)
  now : Nat

/-- Whole days elapsed between two timestamps
(`(utcnow - published).days`). -/
def daysBetween (now published : Nat) : Nat := (now - published) / 86400

/-- Engagement rate `(likes + comments) / views if views > 0 else 0`. -/
def engagementRate (views likes comments : Nat) : ℚ :=
  if 0 < views then mkRat (likes + comments) views else 0

/-- Views per day `views / max(days_since_published, 1)`. -/
def viewsPerDay (views days : Nat) : ℚ :=
  mkRat views (max days 1)

/-- Mean likes of the recent comments:
`np.mean([...]) if recent_comments else 0`. -/
def avgLikesPerComment (recent : List VpaComment) : ℚ :=
  if recent.isEmpty then 0
  else mkRat ((recent.map (fun c => c.likes)).sum) recent.length

/-- Performance-metrics section of the analysis report. -/
def formatVpaBase (v : VpaVideo) (views likes comments : Nat)
    (vpd er : ℚ) : String :=
  "Video Performance Analysis\n" ++
  "Title: " ++ v.title ++ "\n" ++
  "Channel: " ++ v.channelTitle ++ "\n" ++
  "Published: " ++ toString v.publishedAt ++ "\n" ++
  "Duration: " ++ toString v.durationHours ++ "h " ++
    toString v.durationMinutes ++ "m " ++
    toString v.durationSeconds ++ "s\n" ++
  "Views: " ++ toString views ++ "\n" ++
  "Likes: " ++ toString likes ++ "\n" ++
  "Comments: " ++ toString comments ++ "\n" ++
  "Views per Day: " ++ toString vpd ++ "\n" ++
  "Engagement Rate: " ++ toString er ++ "\n"

/-- Top-comments section. -/
def formatTopComments (top : List VpaComment) : String :=
  "Top Comments Analysis:\n" ++
  String.join (top.map (fun c =>
    "Likes: " ++ toString c.likes ++ "\n" ++
    "   Author: " ++ c.author ++ "\n" ++
    "   Comment: " ++ c.text ++ "\n"))

/-- Comment-engagement section. -/
def formatCommentMetrics (avg : ℚ) (recentCount : Nat) : String :=
  "Comment Engagement Metrics:\n" ++
  "Average Likes per Comment: " ++ toString avg ++ "\n" ++
  "Recent Comments (30 days): " ++ toString recentCount ++ "\n"

/-- Body of `VideoPerformanceAnalyzer.run` inside the `try`. -/
def vpaBody (apiKey : Option String) (api : VpaApi) (videoId : String)
    (includeComments : Bool) : Except String String := do
  let items ← api.videos videoId
  match items with
  | [] => .ok "Video not found."
  | v :: _ => do
    let views := v.viewCount.getD 0
    let likes := v.likeCount.getD 0
    let comments := v.commentCount.getD 0
    let er := engagementRate views likes comments
    let vpd := viewsPerDay views (daysBetween api.now v.publishedAt)
    let base := formatVpaBase v views likes comments vpd er
    if includeComments && 0 < comments then do
      let citems ← api.commentThreads videoId
      if citems.isEmpty then
        .ok base
      else
        let sortedComments := sortDescBy (fun c => c.likes) citems
        let top := sortedComments.take 5
        let recent := sortedComments.filter
          (fun c => daysBetween api.now c.publishedAt ≤ 30)
        .ok (base ++ formatTopComments top ++
          formatCommentMetrics (avgLikesPerComment recent) recent.length)
    else
      .ok base

/-- `VideoPerformanceAnalyzer.run`: the whole body runs under the
exception handler. -/
def runVideoPerformanceAnalyzer (apiKey : Option String) (api : VpaApi)
    (videoId : String) (includeComments : Bool) : String :=
  pyTry "Error analyzing video performance: "
    (vpaBody apiKey api videoId includeComments)

/-! ### Definitions modelled from the spec (refinement comparisons) -/

/-- Modelled from the spec: the C8 scoring policy tests each term for
substring presence in the concatenation of the keyword and description
fields, and divides the match count by the term count. -/
def specScoreConcat (q keywords desc : String) : ℚ :=
  let terms := searchTermsOf q
  mkRat (terms.countP (fun t => pyInStr t (keywords ++ desc)))
    terms.length

/-- Modelled from the spec: the first-seen identifier order produced by
the Paginator, i.e. the harvested ids of the successively consumed
pages in consumption order, with the loop's truncation behaviour;
`k` is the number of records already collected. -/
def firstSeenIds (maxResults : Nat) :
    List (Nat → Except String FetchPage) → Nat → List String
  | [], _ => []
  | f :: rest, k =>
    if k < maxResults then
      match f (min 50 (maxResults - k)) with
      | .error _ => []
      | .ok page =>
        match page.items with
        | none => []
        | some ids =>
          if page.nextPageToken then
            ids ++ firstSeenIds maxResults rest (k + ids.length)
          else ids
    else []

/-! ### Concrete fixtures for witnesses and counterexamples -/

/-- A channel whose keywords and description match the query `tech`. -/
def techChannel : SearchChannel :=
  { id := "c1", title := "TechChan", description := "tech reviews here",
    keywords := some "tech", country := none, publishedAt := "2020",
    topics := [], stats := ⟨some 5, some 2, some 100⟩ }

/-- A channel with keyword field `ab` and description `cd`: the term
`bc` occurs in the concatenation `abcd` but in neither field. -/
def missChannel : SearchChannel :=
  { id := "c2", title := "Misc", description := "cd",
    keywords := some "ab", country := none, publishedAt := "2020",
    topics := [], stats := ⟨some 7, some 3, some 50⟩ }

/-- A channel whose subscriber count is hidden. -/
def hiddenChannel : SearchChannel :=
  { id := "c3", title := "Hid", description := "tech",
    keywords := none, country := none, publishedAt := "2020",
    topics := [], stats := ⟨none, some 1, some 10⟩ }

/-- Provider whose search finds exactly the given channel. -/
def oneChannelApi (c : SearchChannel) : CompetitorApi :=
  { search := fun _ _ => .ok [c.id], channels := fun _ => .ok [c] }

/-- Minimal enriched video record carrying its identifier. -/
def mkVid (i : String) : Video :=
  { title := i, video_id := i, published_at := 0, view_count := 0,
    like_count := 0, comment_count := 0 }

/-- Batch lookup returning one record per id, in request order. -/
def idBatch : List String → Except String (List Video) :=
  fun ids => .ok (ids.map mkVid)

/-- Batch lookup returning the records in reversed (response) order. -/
def swapBatch : List String → Except String (List Video) :=
  fun ids => .ok (ids.reverse.map mkVid)

/-- A single final page that returns two items however few were
requested. -/
def overfullPages : List (Nat → Except String FetchPage) :=
  [fun _ => .ok ⟨some ["a", "b"], false⟩]

/-- Pages that deliver one item each and always report a continuation
token. -/
def dripPages : List (Nat → Except String FetchPage) :=
  [fun _ => .ok ⟨some ["a"], true⟩, fun _ => .ok ⟨some ["b"], true⟩]

/-- A single final page holding the two ids `a`, `b`. -/
def pairPage : List (Nat → Except String FetchPage) :=
  [fun _ => .ok ⟨some ["a", "b"], false⟩]

/-- A single final page returning at most one item, never more than
requested. -/
def honestPages : List (Nat → Except String FetchPage) :=
  [fun r => .ok ⟨some (if r = 0 then [] else ["a"]), false⟩]

/-- A single final page returning exactly as many items as requested. -/
def fullPages : List (Nat → Except String FetchPage) :=
  [fun r => .ok ⟨some ((List.range r).map (fun i => toString i)), false⟩]

/-! ### Ranker lemmas: permutation, sortedness, stability -/

theorem insertDescBy_perm (key : α → Nat) (x : α) (l : List α) :
    List.Perm (insertDescBy key x l) (x :: l) := by
  induction l with
  | nil => simp [insertDescBy]
  | cons b l ih =>
    simp only [insertDescBy]
    split
    · exact ((ih.cons b).trans (List.Perm.swap x b l))
    · exact List.Perm.refl _

theorem sortDescBy_perm (key : α → Nat) (l : List α) :
    List.Perm (sortDescBy key l) l := by
  induction l with
  | nil => simp [sortDescBy]
  | cons x xs ih =>
    exact ((insertDescBy_perm key x (sortDescBy key xs)).trans (ih.cons x))

theorem length_sortDescBy (key : α → Nat) (l : List α) :
    (sortDescBy key l).length = l.length :=
  (sortDescBy_perm key l).length_eq

theorem mem_insertDescBy {key : α → Nat} {x y : α} {l : List α} :
    y ∈ insertDescBy key x l ↔ y = x ∨ y ∈ l := by
  have h := (insertDescBy_perm key x l).mem_iff (a := y)
  simpa using h

theorem pairwise_insertDescBy {key : α → Nat} {x : α} {l : List α}
    (h : l.Pairwise (fun a b => key b ≤ key a)) :
    (insertDescBy key x l).Pairwise (fun a b => key b ≤ key a) := by
  induction l with
  | nil => simp [insertDescBy]
  | cons b l ih =>
    rw [List.pairwise_cons] at h
    simp only [insertDescBy]
    split
    · rename_i hlt
      rw [List.pairwise_cons]
      refine ⟨?_, ih h.2⟩
      intro y hy
      rcases mem_insertDescBy.mp hy with rfl | hmem
      · exact Nat.le_of_lt hlt
      · exact h.1 y hmem
    · rename_i hge
      rw [List.pairwise_cons]
      refine ⟨?_, List.pairwise_cons.mpr h⟩
      intro y hy
      rcases List.mem_cons.mp hy with rfl | hmem
      · exact Nat.le_of_not_lt hge
      · exact Nat.le_trans (h.1 y hmem) (Nat.le_of_not_lt hge)

theorem pairwise_sortDescBy (key : α → Nat) (l : List α) :
    (sortDescBy key l).Pairwise (fun a b => key b ≤ key a) := by
  induction l with
  | nil => simp [sortDescBy]
  | cons x xs ih => exact pairwise_insertDescBy ih

theorem filter_insertDescBy (key : α → Nat) (v : Nat) (x : α) (l : List α) :
    (insertDescBy key x l).filter (fun a => key a == v) =
      if key x = v then x :: l.filter (fun a => key a == v)
      else l.filter (fun a => key a == v) := by
  induction l with
  | nil => by_cases hx : key x = v <;> simp [insertDescBy, hx]
  | cons b l ih =>
    simp only [insertDescBy]
    split
    · rename_i hlt
      by_cases hb : key b = v
      · have hx : ¬ key x = v := by omega
        simp [List.filter_cons, hb, hx, ih]
      · simp [List.filter_cons, hb, ih]
    · by_cases hx : key x = v <;> simp [List.filter_cons, hx]

/-- Stability of the ranker: for each key value, the subsequence of
records carrying that key is unchanged by the sort. -/
theorem filter_sortDescBy (key : α → Nat) (v : Nat) (l : List α) :
    (sortDescBy key l).filter (fun a => key a == v) =
      l.filter (fun a => key a == v) := by
  induction l with
  | nil => simp [sortDescBy]
  | cons x xs ih =>
    simp only [sortDescBy, filter_insertDescBy, ih]
    by_cases hx : key x = v <;> simp [List.filter_cons, hx]

/-! ### Pagination-loop lemmas -/

theorem fetchLoop_stops_when_collected (N : Nat)
    (batch : List String → Except String (List Video))
    (pages : List (Nat → Except String FetchPage)) (acc : List Video)
    (h : N ≤ acc.length) :
    fetchLoop N batch pages acc = (.ok (.report acc), 0) := by
  cases pages with
  | nil => simp [fetchLoop]
  | cons f rest => simp [fetchLoop, Nat.not_lt.mpr h]

theorem fetchLoop_report_length_le (N : Nat)
    (batch : List String → Except String (List Video))
    (Hb : ∀ ids vids, batch ids = .ok vids → vids.length ≤ ids.length)
    (pages : List (Nat → Except String FetchPage)) :
    ∀ acc : List Video,
      (∀ f ∈ pages, ∀ r page ids, f r = .ok page →
        page.items = some ids → ids.length ≤ r) →
      acc.length ≤ N → ∀ vs : List Video,
      (fetchLoop N batch pages acc).1 = .ok (.report vs) →
      vs.length ≤ N := by
  induction pages with
  | nil =>
    intro acc _ hacc vs h
    simp only [fetchLoop, Except.ok.injEq, FetchOutcome.report.injEq] at h
    rw [← h]
    exact hacc
  | cons f rest ih =>
    intro acc Hp hacc vs h
    simp only [fetchLoop] at h
    by_cases hlt : acc.length < N
    · rw [if_pos hlt] at h
      cases hf : f (min 50 (N - acc.length)) with
      | error e => simp only [hf] at h; exact (Except.noConfusion h)
      | ok page =>
        simp only [hf] at h
        cases hi : page.items with
        | none =>
          simp only [hi] at h
          exact (FetchOutcome.noConfusion (Except.ok.inj h))
        | some ids =>
          simp only [hi] at h
          cases hbb : batch ids with
          | error e => simp only [hbb] at h; exact (Except.noConfusion h)
          | ok vids =>
            simp only [hbb] at h
            have hvids : vids.length ≤ ids.length := Hb ids vids hbb
            have hids : ids.length ≤ min 50 (N - acc.length) :=
              Hp f (List.mem_cons_self f rest) _ page ids hf hi
            have hacc2 : (acc ++ vids).length ≤ N := by
              rw [List.length_append]
              omega
            by_cases ht : page.nextPageToken
            · simp only [ht, if_true] at h
              exact ih (acc ++ vids)
                (fun g hg => Hp g (List.mem_cons_of_mem f hg)) hacc2 vs h
            · simp only [Bool.not_eq_true] at ht
              simp only [ht, Bool.false_eq_true, if_false,
                Except.ok.injEq, FetchOutcome.report.injEq] at h
              rw [← h]
              exact hacc2
    · rw [if_neg hlt] at h
      simp only [Except.ok.injEq, FetchOutcome.report.injEq] at h
      rw [← h]
      exact hacc

theorem fetchLoop_calls_bound (N : Nat)
    (batch : List String → Except String (List Video))
    (Hb : ∀ ids, ∃ vids, batch ids = .ok vids ∧ vids.length = ids.length)
    (pages : List (Nat → Except String FetchPage)) :
    ∀ acc : List Video,
      (∀ f ∈ pages, ∀ r, ∃ page ids, f r = .ok page ∧
        page.items = some ids ∧ ids.length = r) →
      (fetchLoop N batch pages acc).2 * 50 ≤ (N - acc.length) + 49 := by
  induction pages with
  | nil =>
    intro acc _
    show (0 : Nat) * 50 ≤ (N - acc.length) + 49
    omega
  | cons f rest ih =>
    intro acc Hp
    by_cases hlt : acc.length < N
    · obtain ⟨page, ids, hf, hi, hlen⟩ :=
        Hp f (List.mem_cons_self f rest) (min 50 (N - acc.length))
      obtain ⟨vids, hbb, hvlen⟩ := Hb ids
      by_cases ht : page.nextPageToken
      · simp only [fetchLoop, if_pos hlt, hf, hi, hbb, ht, if_true]
        by_cases hfull : 50 ≤ N - acc.length
        · have hrec := ih (acc ++ vids)
            (fun g hg => Hp g (List.mem_cons_of_mem f hg))
          have hacc2 : (acc ++ vids).length = acc.length + 50 := by
            rw [List.length_append]
            omega
          rw [hacc2] at hrec
          omega
        · have hstop : N ≤ (acc ++ vids).length := by
            rw [List.length_append]
            omega
          have hz : (fetchLoop N batch rest (acc ++ vids)).2 = 0 := by
            rw [fetchLoop_stops_when_collected N batch rest (acc ++ vids)
              hstop]
          omega
      · simp only [Bool.not_eq_true] at ht
        simp only [fetchLoop, if_pos hlt, hf, hi, hbb, ht,
          Bool.false_eq_true, if_false]
        omega
    · simp only [fetchLoop, if_neg hlt]
      omega

theorem fetchLoop_stops_on_null_token (N : Nat)
    (batch : List String → Except String (List Video))
    (f : Nat → Except String FetchPage)
    (rest rest' : List (Nat → Except String FetchPage))
    (acc : List Video) (page : FetchPage)
    (hf : f (min 50 (N - acc.length)) = .ok page)
    (ht : page.nextPageToken = false) :
    fetchLoop N batch (f :: rest) acc = fetchLoop N batch (f :: rest') acc
    ∧ (fetchLoop N batch (f :: rest) acc).2 ≤ 1 := by
  by_cases hlt : acc.length < N
  · cases hi : page.items with
    | none =>
      constructor
      · simp [fetchLoop, if_pos hlt, hf, hi]
      · simp [fetchLoop, if_pos hlt, hf, hi]
    | some ids =>
      cases hbb : batch ids with
      | error e =>
        constructor
        · simp [fetchLoop, if_pos hlt, hf, hi, hbb]
        · simp [fetchLoop, if_pos hlt, hf, hi, hbb]
      | ok vids =>
        constructor
        · simp [fetchLoop, if_pos hlt, hf, hi, hbb, ht]
        · simp [fetchLoop, if_pos hlt, hf, hi, hbb, ht]
  · constructor
    · simp [fetchLoop, if_neg hlt]
    · simp [fetchLoop, if_neg hlt]

theorem fetchLoop_ids_first_seen (N : Nat)
    (batch : List String → Except String (List Video))
    (Hb : ∀ ids, ∃ vids, batch ids = .ok vids ∧
      vids.map (fun v => v.video_id) = ids)
    (pages : List (Nat → Except String FetchPage)) :
    ∀ acc vs : List Video,
      (fetchLoop N batch pages acc).1 = .ok (.report vs) →
      vs.map (fun v => v.video_id) =
        acc.map (fun v => v.video_id) ++ firstSeenIds N pages acc.length := by
  induction pages with
  | nil =>
    intro acc vs h
    simp only [fetchLoop, Except.ok.injEq, FetchOutcome.report.injEq] at h
    simp [firstSeenIds, ← h]
  | cons f rest ih =>
    intro acc vs h
    simp only [fetchLoop] at h
    simp only [firstSeenIds]
    by_cases hlt : acc.length < N
    · rw [if_pos hlt] at h
      rw [if_pos hlt]
      cases hf : f (min 50 (N - acc.length)) with
      | error e => simp only [hf] at h; exact (Except.noConfusion h)
      | ok page =>
        simp only [hf] at h
        simp only [hf]
        cases hi : page.items with
        | none =>
          simp only [hi] at h
          exact (FetchOutcome.noConfusion (Except.ok.inj h))
        | some ids =>
          simp only [hi] at h
          simp only [hi]
          obtain ⟨vids, hbb, hmap⟩ := Hb ids
          simp only [hbb] at h
          have hvlen : vids.length = ids.length := by
            have := congrArg List.length hmap
            simpa using this
          by_cases ht : page.nextPageToken
          · simp only [ht, if_true] at h
            simp only [ht, if_true]
            have hrec := ih (acc ++ vids) vs h
            rw [hrec, List.map_append, hmap, List.length_append, hvlen,
              List.append_assoc]
          · simp only [Bool.not_eq_true] at ht
            simp only [ht, Bool.false_eq_true, if_false,
              Except.ok.injEq, FetchOutcome.report.injEq] at h
            simp only [ht, Bool.false_eq_true, if_false]
            rw [← h, List.map_append, hmap]
    · rw [if_neg hlt] at h
      rw [if_neg hlt]
      simp only [Except.ok.injEq, FetchOutcome.report.injEq] at h
      simp [← h]

theorem buildCompetitors_length_le (q : String) (th : ℚ)
    (chans : List SearchChannel) :
    ∀ comps : List Competitor,
      buildCompetitors q th chans = .ok comps →
      comps.length ≤ chans.length := by
  induction chans with
  | nil =>
    intro comps h
    simp only [buildCompetitors, Except.ok.injEq] at h
    simp [← h]
  | cons c rest ih =>
    intro comps h
    simp only [buildCompetitors, bind, Except.bind] at h
    cases hs : relevanceScore q c with
    | error e => simp only [hs] at h; exact (Except.noConfusion h)
    | ok score =>
      simp only [hs] at h
      cases hb : buildCompetitors q th rest with
      | error e => simp only [hb] at h; exact (Except.noConfusion h)
      | ok others =>
        simp only [hb] at h
        have hlen := ih others hb
        by_cases hth : th ≤ score
        · simp only [if_pos hth, Except.ok.injEq] at h
          rw [← h]
          simp only [List.length_cons]
          omega
        · simp only [if_neg hth, Except.ok.injEq] at h
          rw [← h]
          simp only [List.length_cons]
          omega

/-! ### Exception-handler lemma shared by the tools -/

theorem pyTry_spec (m : String) (b : Except String String) :
    (∃ s, b = .ok s ∧ pyTry m b = s) ∨
    (∃ e, b = .error e ∧ pyTry m b = m ++ e) := by
  cases b with
  | ok s => exact .inl ⟨s, rfl, rfl⟩
  | error e => exact .inr ⟨e, rfl, rfl⟩

/-! ### Claims -/

/-- C1: the claim says a zero-term query must yield score `0` as a
value without a division fault; the code divides the match count by
`len(search_terms)` unguarded, so the empty query raises
`ZeroDivisionError`, which the blanket handler converts into the error
string - no score-0 result is ever produced. -/
theorem c1_zero_term_query_division_fault :
    runCompetitorSearchTool (some "key") (oneChannelApi techChannel) ""
      10 (mkRat 1 2) =
    "Error searching for competitors: division by zero" := by decide

/-- C2: the claim says the Summarizer returns a defined zero value over
an empty final record sequence.  `VideoPerformanceAnalyzer` does guard
its mean (`np.mean(...) if recent_comments else 0`), but
`CompetitorSearchTool` divides `sum(...)` by `len(competitors)`
unguarded, so a run in which every found channel is filtered out raises
`ZeroDivisionError` and returns the handler's error string instead of a
zero aggregate. -/
theorem c2_empty_summary_division_fault :
    runCompetitorSearchTool (some "key") (oneChannelApi missChannel)
      "zzz" 10 (mkRat 1 2) =
    "Error searching for competitors: division by zero"
    ∧ avgLikesPerComment [] = 0 := by
  exact ⟨by decide, by decide⟩

/-- C3 counterexample: the claim asserts stability for every ranker,
but the `VideoFetchingTool` ranker is `df.sort_values` with the default
sort kind, whose contract (`PandasSortValuesDesc`) does not promise
stability.  For the input `[mkVid "a", mkVid "b"]` - two records with
equal key `view_count = 0` and distinct `video_id` markers - the
swapped output `[mkVid "b", mkVid "a"]` satisfies everything the code
guarantees for that ranker, yet the equal-key subsequence differs from
the input's, so the claimed stability is not a consequence of the
program. -/
theorem c3_counterexample_pandas_tie_order :
    PandasSortValuesDesc (fun v => v.view_count)
      [mkVid "a", mkVid "b"] [mkVid "b", mkVid "a"]
    ∧ ([mkVid "b", mkVid "a"].filter (fun v => v.view_count == 0) ≠
       [mkVid "a", mkVid "b"].filter (fun v => v.view_count == 0)) := by
  refine ⟨⟨List.Perm.swap (mkVid "a") (mkVid "b") [], ?_⟩, ?_⟩
  · decide
  · decide

/-- C3 amended: for the rankers implemented with
`list.sort(key=..., reverse=True)` - the competitor ranking and the
comment ranking, modelled by `sortDescBy` - the output has equal
length, is a permutation of the input, is non-increasing on the key,
and is stable: for each key value the subsequence of records carrying
it is unchanged.  The `VideoFetchingTool` ranker guarantees only the
sorted-permutation contract `PandasSortValuesDesc`, of which
`sortDescBy` is one admissible refinement (final conjunct); its tie
order is unspecified. -/
theorem c3_amended_ranker_properties (key : α → Nat) (l : List α) :
    ((sortDescBy key l).length = l.length
    ∧ List.Perm (sortDescBy key l) l
    ∧ (sortDescBy key l).Pairwise (fun a b => key b ≤ key a)
    ∧ ∀ v : Nat, (sortDescBy key l).filter (fun a => key a == v) =
        l.filter (fun a => key a == v))
    ∧ PandasSortValuesDesc key l (sortDescBy key l) :=
  ⟨⟨length_sortDescBy key l, sortDescBy_perm key l,
    pairwise_sortDescBy key l, fun v => filter_sortDescBy key v l⟩,
    sortDescBy_perm key l, pairwise_sortDescBy key l⟩

/-- C4 counterexample: with the credential provider supplying no key,
`CompetitorSearchTool.run` does not fail before the API call with the
configuration error; the collaborator is consulted and its data flows
into a normal report. -/
theorem c4_counterexample_no_key_check :
    runCompetitorSearchTool none (oneChannelApi techChannel) "tech" 5 0 ≠
      "Error: YouTube API key is not set."
    ∧ runCompetitorSearchTool none (oneChannelApi techChannel) "tech" 5 0 =
      formatCompetitorReport "tech" [mkCompetitor 1 techChannel]
        (mkRat 5 1) (mkRat 100 1) := by
  exact ⟨by decide, by decide⟩

/-- C4 amended: only `ChannelDemographicsTool` checks the credential -
with the key absent it returns the configuration error as a value
without consulting the provider (the result is independent of the
collaborator) - while the other three tools ignore the key entirely
(their results are independent of the supplied key). -/
theorem c4_amended_key_check (oauthCreds : Option String) (api : DemoApi)
    (channelId : String) :
    runChannelDemographicsTool none oauthCreds api channelId =
      "Error: YouTube API key is not set."
    ∧ (∀ (k k' : Option String) (capi : CompetitorApi) q n th,
        runCompetitorSearchTool k capi q n th =
        runCompetitorSearchTool k' capi q n th)
    ∧ (∀ (k k' : Option String) (fapi : FetchApi) cid n sb,
        runVideoFetchingTool k fapi cid n sb =
        runVideoFetchingTool k' fapi cid n sb)
    ∧ (∀ (k k' : Option String) (vapi : VpaApi) vid ic,
        runVideoPerformanceAnalyzer k vapi vid ic =
        runVideoPerformanceAnalyzer k' vapi vid ic) :=
  ⟨rfl, fun _ _ _ _ _ _ => rfl, fun _ _ _ _ _ _ => rfl,
    fun _ _ _ _ _ => rfl⟩

/-- C8 counterexample: for the one-term query `bc` against the channel
with keyword field `ab` and description `cd`, the code scores `0`
(substring test against each field separately), while the claimed
formula over the concatenation `abcd` scores `1`. -/
theorem c8_counterexample_concatenation :
    relevanceScore "bc" missChannel = .ok 0
    ∧ specScoreConcat "bc" (channelKeywords missChannel)
        (channelDescLower missChannel) = 1
    ∧ (0 : ℚ) ≠ 1 := by
  exact ⟨by decide, by decide, by decide⟩

/-- C8 amended: for every record and every query with at least one
term, the relevance score equals the number of terms occurring as a
substring of the keyword field or of the description field, divided by
the total number of terms. -/
theorem c8_amended_score_formula (q : String) (c : SearchChannel)
    (h : searchTermsOf q ≠ []) :
    relevanceScore q c = .ok (mkRat
      ((searchTermsOf q).countP (fun t =>
        pyInStr t (channelKeywords c) || pyInStr t (channelDescLower c)))
      (searchTermsOf q).length) := by
  have hlen : (searchTermsOf q).length ≠ 0 := by
    simpa [List.length_eq_zero] using h
  simp [relevanceScore, pyDiv, termMatches, hlen]

theorem c8_amended_score_formula_witness :
    searchTermsOf "tech reviews" ≠ []
    ∧ relevanceScore "tech reviews" techChannel = .ok (mkRat
      ((searchTermsOf "tech reviews").countP (fun t =>
        pyInStr t (channelKeywords techChannel) ||
        pyInStr t (channelDescLower techChannel)))
      (searchTermsOf "tech reviews").length) :=
  ⟨by decide,
    c8_amended_score_formula "tech reviews" techChannel (by decide)⟩

/-- C9: every tool's `run` returns a string: its body's value when the
body completes, and otherwise the tool's error prefix followed by the
exception text - no exception propagates past the handler. -/
theorem c9_run_never_throws :
    (∀ k api q n th,
      (∃ s, competitorBody k api q n th = .ok s ∧
        runCompetitorSearchTool k api q n th = s) ∨
      (∃ e, competitorBody k api q n th = .error e ∧
        runCompetitorSearchTool k api q n th =
          "Error searching for competitors: " ++ e))
    ∧ (∀ k api cid n sb,
      (∃ s, videoFetchBody k api cid n sb = .ok s ∧
        runVideoFetchingTool k api cid n sb = s) ∨
      (∃ e, videoFetchBody k api cid n sb = .error e ∧
        runVideoFetchingTool k api cid n sb =
          "Error fetching videos: " ++ e))
    ∧ (∀ k oc api cid,
      (∃ s, demoBody k oc api cid = .ok s ∧
        runChannelDemographicsTool k oc api cid = s) ∨
      (∃ e, demoBody k oc api cid = .error e ∧
        runChannelDemographicsTool k oc api cid =
          "Error fetching channel demographics: " ++ e))
    ∧ (∀ k api vid ic,
      (∃ s, vpaBody k api vid ic = .ok s ∧
        runVideoPerformanceAnalyzer k api vid ic = s) ∨
      (∃ e, vpaBody k api vid ic = .error e ∧
        runVideoPerformanceAnalyzer k api vid ic =
          "Error analyzing video performance: " ++ e)) :=
  ⟨fun k api q n th => pyTry_spec _ (competitorBody k api q n th),
    fun k api cid n sb => pyTry_spec _ (videoFetchBody k api cid n sb),
    fun k oc api cid => pyTry_spec _ (demoBody k oc api cid),
    fun k api vid ic => pyTry_spec _ (vpaBody k api vid ic)⟩

/-- C10: a channel whose statistics lack `subscriberCount` gets
`subscriber_count = 0` in `CompetitorSearchTool`, therefore sorts after
every positive-count channel in the descending ranking (no record later
in the ranking has a positive count unless the earlier one does), and
contributes nothing to the subscriber sum feeding the average, while
`ChannelDemographicsTool` renders the same absence as `Hidden`. -/
theorem c10_hidden_subscriber_count (c : SearchChannel) (s : ℚ)
    (h : c.stats.subscriberCount = none) :
    (mkCompetitor s c).subscriber_count = 0
    ∧ (∀ l : List Competitor,
        (sortDescBy (fun x => x.subscriber_count) l).Pairwise
          (fun a b => 0 < b.subscriber_count → 0 < a.subscriber_count))
    ∧ (∀ rest : List Competitor,
        ((mkCompetitor s c :: rest).map
          (fun x => x.subscriber_count)).sum =
        ((rest.map (fun x => x.subscriber_count)).sum))
    ∧ subscriberDisplay c.stats = "Hidden" := by
  refine ⟨by simp [mkCompetitor, h], ?_, ?_, by simp [subscriberDisplay, h]⟩
  · intro l
    exact (pairwise_sortDescBy (fun x => x.subscriber_count) l).imp
      (fun hle hpos => Nat.lt_of_lt_of_le hpos hle)
  · intro rest
    simp [mkCompetitor, h]

theorem c10_hidden_subscriber_count_witness :
    hiddenChannel.stats.subscriberCount = none
    ∧ ((mkCompetitor 1 hiddenChannel).subscriber_count = 0
    ∧ (∀ l : List Competitor,
        (sortDescBy (fun x => x.subscriber_count) l).Pairwise
          (fun a b => 0 < b.subscriber_count → 0 < a.subscriber_count))
    ∧ (∀ rest : List Competitor,
        ((mkCompetitor 1 hiddenChannel :: rest).map
          (fun x => x.subscriber_count)).sum =
        ((rest.map (fun x => x.subscriber_count)).sum))
    ∧ subscriberDisplay hiddenChannel.stats = "Hidden") :=
  ⟨rfl, c10_hidden_subscriber_count hiddenChannel 1 rfl⟩

/-- C5 counterexample: with requested bound 1, a single page returning
two items makes the loop append both enriched records, so the final
record list has length 2 > 1 - the code trusts the provider to honour
the requested maxResults. -/
theorem c5_counterexample_overfull_page :
    (fetchLoop 1 idBatch overfullPages []).1 =
      .ok (.report [mkVid "a", mkVid "b"])
    ∧ ¬ (([mkVid "a", mkVid "b"] : List Video).length ≤ 1) :=
  ⟨by decide, by decide⟩

/-- C5 amended: provided every page returns at most the requested
number of items and the batch lookup returns at most one record per
id, the number of enriched records in the final output never exceeds
the requested bound N - in VideoFetchingTool the loop result, and in
CompetitorSearchTool the ranked competitor list (when the search
returns at most N ids and the channel lookup at most one record per
id). -/
theorem c5_amended_result_bound (N : Nat)
    (batch : List String → Except String (List Video))
    (Hb : ∀ ids vids, batch ids = .ok vids → vids.length ≤ ids.length)
    (pages : List (Nat → Except String FetchPage))
    (Hp : ∀ f ∈ pages, ∀ r page ids, f r = .ok page →
      page.items = some ids → ids.length ≤ r) :
    (∀ vs : List Video,
      (fetchLoop N batch pages []).1 = .ok (.report vs) → vs.length ≤ N)
    ∧ (∀ (api : CompetitorApi) (q : String) (th : ℚ)
        (items : List String) (chans : List SearchChannel)
        (comps : List Competitor),
        api.search q N = .ok items → items.length ≤ N →
        api.channels items = .ok chans → chans.length ≤ items.length →
        buildCompetitors q th chans = .ok comps →
        (sortDescBy (fun c => c.subscriber_count) comps).length ≤ N) := by
  constructor
  · intro vs h
    exact fetchLoop_report_length_le N batch Hb pages [] Hp
      (by simp) vs h
  · intro api q th items chans comps _ hitems _ hchans hcomps
    rw [length_sortDescBy]
    have := buildCompetitors_length_le q th chans comps hcomps
    omega

theorem c5_amended_result_bound_witness :
    (∀ vs : List Video,
      (fetchLoop 2 idBatch honestPages []).1 = .ok (.report vs) →
      vs.length ≤ 2)
    ∧ (∀ (api : CompetitorApi) (q : String) (th : ℚ)
        (items : List String) (chans : List SearchChannel)
        (comps : List Competitor),
        api.search q 2 = .ok items → items.length ≤ 2 →
        api.channels items = .ok chans → chans.length ≤ items.length →
        buildCompetitors q th chans = .ok comps →
        (sortDescBy (fun c => c.subscriber_count) comps).length ≤ 2) :=
  c5_amended_result_bound 2 idBatch
    (by
      intro ids vids h
      have hv := Except.ok.inj h
      rw [← hv]
      simp [List.length_map])
    honestPages
    (by
      intro f hf r page ids h1 h2
      simp only [honestPages, List.mem_singleton] at hf
      subst hf
      have hp := Except.ok.inj h1
      rw [← hp] at h2
      have hids := Option.some.inj h2
      rw [← hids]
      by_cases hr : r = 0
      · simp [hr]
      · simp only [if_neg hr, List.length_singleton]
        omega)

/-- C6 counterexample: with target 2 and pages delivering one item each
while always reporting a continuation token, the loop issues 2 page
requests, exceeding ceil(2 / 50) = 1 - the claimed bound only holds for
full pages. -/
theorem c6_counterexample_partial_pages :
    (fetchLoop 2 idBatch dripPages []).2 = 2
    ∧ ¬ ((2 : Nat) ≤ (2 + 49) / 50) :=
  ⟨by decide, by decide⟩

/-- C6 amended: the Paginator stops as soon as the target is collected
or the continuation token is absent, and never issues a request once
the token is null (pages past a token-less page are irrelevant); the
ceil(N / 50) bound on page calls holds provided every page returns
exactly the requested number of items (with partial pages the call
count can reach one call per provider page, as the counterexample
shows). -/
theorem c6_amended_pagination (N : Nat)
    (batch : List String → Except String (List Video))
    (pages : List (Nat → Except String FetchPage))
    (Hb : ∀ ids, ∃ vids, batch ids = .ok vids ∧ vids.length = ids.length)
    (Hp : ∀ f ∈ pages, ∀ r, ∃ page ids, f r = .ok page ∧
      page.items = some ids ∧ ids.length = r) :
    (fetchLoop N batch pages []).2 ≤ (N + 49) / 50
    ∧ (∀ (f : Nat → Except String FetchPage) rest rest'
        (acc : List Video) (page : FetchPage),
        f (min 50 (N - acc.length)) = .ok page →
        page.nextPageToken = false →
        fetchLoop N batch (f :: rest) acc =
          fetchLoop N batch (f :: rest') acc
        ∧ (fetchLoop N batch (f :: rest) acc).2 ≤ 1)
    ∧ (∀ (pgs : List (Nat → Except String FetchPage)) (acc : List Video),
        N ≤ acc.length →
        fetchLoop N batch pgs acc = (.ok (.report acc), 0)) := by
  refine ⟨?_, ?_, ?_⟩
  · have h := fetchLoop_calls_bound N batch Hb pages [] Hp
    simp only [List.length_nil, Nat.sub_zero] at h
    rw [Nat.le_div_iff_mul_le (by omega)]
    omega
  · intro f rest rest' acc page hf ht
    exact fetchLoop_stops_on_null_token N batch f rest rest' acc page hf ht
  · intro pgs acc h
    exact fetchLoop_stops_when_collected N batch pgs acc h

theorem c6_amended_pagination_witness :
    ((fetchLoop 3 idBatch fullPages []).2 ≤ (3 + 49) / 50
    ∧ (∀ (f : Nat → Except String FetchPage) rest rest'
        (acc : List Video) (page : FetchPage),
        f (min 50 (3 - acc.length)) = .ok page →
        page.nextPageToken = false →
        fetchLoop 3 idBatch (f :: rest) acc =
          fetchLoop 3 idBatch (f :: rest') acc
        ∧ (fetchLoop 3 idBatch (f :: rest) acc).2 ≤ 1)
    ∧ (∀ (pgs : List (Nat → Except String FetchPage)) (acc : List Video),
        3 ≤ acc.length →
        fetchLoop 3 idBatch pgs acc = (.ok (.report acc), 0))) :=
  c6_amended_pagination 3 idBatch fullPages
    (by
      intro ids
      exact ⟨ids.map mkVid, rfl, by simp [List.length_map]⟩)
    (by
      intro f hf r
      simp only [fullPages, List.mem_singleton] at hf
      subst hf
      exact ⟨_, (List.range r).map (fun i => toString i), rfl, rfl,
        by simp [List.length_map, List.length_range]⟩)

/-- C7 counterexample: when the batch lookup returns the records for
ids `a`, `b` in the opposite order, the enriched output keeps the
provider response order `b`, `a`, not the first-seen Paginator order
`a`, `b` - the code iterates the batch response, never reordering by
request order. -/
theorem c7_counterexample_response_order :
    (fetchLoop 2 swapBatch pairPage []).1 =
      .ok (.report [mkVid "b", mkVid "a"])
    ∧ firstSeenIds 2 pairPage 0 = ["a", "b"]
    ∧ ([mkVid "b", mkVid "a"].map (fun v => v.video_id)) ≠ ["a", "b"] :=
  ⟨by decide, by decide, by decide⟩

/-- C7 amended: the enriched sequence preserves the provider batch
response order; it coincides with the Paginator first-seen identifier
order exactly when the batch lookup returns one record per id in
request order, in which case the output identifiers equal the
first-seen harvest. -/
theorem c7_amended_order (N : Nat)
    (batch : List String → Except String (List Video))
    (Hb : ∀ ids, ∃ vids, batch ids = .ok vids ∧
      vids.map (fun v => v.video_id) = ids)
    (pages : List (Nat → Except String FetchPage)) (vs : List Video)
    (h : (fetchLoop N batch pages []).1 = .ok (.report vs)) :
    vs.map (fun v => v.video_id) = firstSeenIds N pages 0 := by
  have hfs := fetchLoop_ids_first_seen N batch Hb pages [] vs h
  simpa using hfs

theorem c7_amended_order_witness :
    ((fetchLoop 2 idBatch pairPage []).1 =
      .ok (.report [mkVid "a", mkVid "b"]))
    ∧ ([mkVid "a", mkVid "b"].map (fun v => v.video_id) =
        firstSeenIds 2 pairPage 0) :=
  ⟨by decide,
    c7_amended_order 2 idBatch
      (by
        intro ids
        refine ⟨ids.map mkVid, rfl, ?_⟩
        have hc : ((fun v : Video => v.video_id) ∘ mkVid) =
            fun i : String => i := by
          funext i
          rfl
        simp [List.map_map, hc])
      pairPage [mkVid "a", mkVid "b"] (by decide)⟩

end YTA
